import Mathlib

/-!
Verification of the quiz-chain solver (`app/solver.py`).

The Python source is shallowly embedded below.  Strings are handled at the
level of their character lists (`String` in this Lean version is a structure
around `List Char`), so every definition is executable and kernel-reducible.
Library calls made by the source (BeautifulSoup element selection,
`urllib.parse`, pandas CSV ingestion, HTTP and the page renderer) are
represented by their outputs: the embedded functions take those outputs as
arguments, and the chain engine is driven by an environment that supplies,
for each iteration, the outcome of the rendered page's solver run and of the
submission POST.
-/

namespace QuizSolver

/-- Python's `in` operator on strings, at the level of character lists:
`listContains s pat` is true when `pat` occurs as a contiguous substring
of `s`. -/
def listContains : List Char → List Char → Bool
  | s, pat =>
    match s with
    | [] => pat.isEmpty
    | _ :: rest => pat.isPrefixOf s || listContains rest pat

/-- Python substring containment `pat in s`, for Lean strings. -/
def strContains (s pat : String) : Bool :=
  listContains s.data pat.data

/-- Python's `str.lower()` (character-wise lowering; the source only matches
ASCII markers). -/
def pyLower (s : String) : String :=
  ⟨s.data.map Char.toLower⟩

/-- Python's `str.strip()`: remove leading and trailing whitespace. -/
def pyStrip (s : String) : String :=
  ⟨((s.data.dropWhile Char.isWhitespace).reverse.dropWhile Char.isWhitespace).reverse⟩

/-- Python's `str.rstrip("/")`: remove every trailing `/`. -/
def rstripSlash (s : String) : String :=
  ⟨(s.data.reverse.dropWhile (fun c => c == '/')).reverse⟩

/-- Embeds `detect_quiz_type` (solver.py lines 22-29): lowercase the HTML and
classify by substring matching, first match wins. -/
def detect_quiz_type (html : String) : String :=
  let html_l := pyLower html
  if strContains html_l "demo-scrape-data" || strContains html_l "scrape" then
    "scrape"
  else if strContains html_l ".csv" || strContains html_l "audio" then
    "audio"
  else
    "generic"

/-- C2: classification is total (one of the three labels) and the scrape
branch has priority: any page whose lowered HTML contains `"scrape"`
classifies as `"scrape"`, even when it also contains `".csv"`. -/
theorem detect_quiz_type_total_and_priority (html : String) :
    (detect_quiz_type html = "scrape" ∨ detect_quiz_type html = "audio" ∨
      detect_quiz_type html = "generic") ∧
    (strContains (pyLower html) "scrape" = true →
      strContains (pyLower html) ".csv" = true →
      detect_quiz_type html = "scrape") := by
  constructor
  · unfold detect_quiz_type
    by_cases h1 : (strContains (pyLower html) "demo-scrape-data"
        || strContains (pyLower html) "scrape") = true
    · simp [h1]
    · by_cases h2 : (strContains (pyLower html) ".csv"
          || strContains (pyLower html) "audio") = true
      · simp [h1, h2]
      · simp [h1, h2]
  · intro hs _
    unfold detect_quiz_type
    simp [hs]

/-- Concrete instantiation of the priority clause: an input containing both
the substring `"scrape"` and `".csv"` classifies as `"scrape"`. -/
theorem detect_quiz_type_total_and_priority_witness :
    strContains (pyLower "scrape.csv") "scrape" = true ∧
    strContains (pyLower "scrape.csv") ".csv" = true ∧
    detect_quiz_type "scrape.csv" = "scrape" :=
  ⟨by decide, by decide,
    (detect_quiz_type_total_and_priority "scrape.csv").2 (by decide) (by decide)⟩

/-- Python's `urllib.parse.urlunparse((scheme, netloc, "", "", "", ""))`:
rebuild an origin-only URL from the scheme and network-location components
of `urlparse(current_url)`. -/
def urlunparse_origin (scheme netloc : String) : String :=
  let url := if netloc == "" then "" else "//" ++ netloc
  if scheme == "" then url else scheme ++ ":" ++ url

/-- The origin selected by `build_submit_url` (solver.py lines 37-44):
`origin_el_text` is the text of `soup.select_one(".origin")` (`none` when the
page has no such element); when its stripped text is non-empty it overrides,
otherwise the origin is rebuilt from the components of `current_url`. -/
def discovered_origin (origin_el_text : Option String) (scheme netloc : String) : String :=
  match origin_el_text with
  | some t => if pyStrip t == "" then urlunparse_origin scheme netloc else pyStrip t
  | none => urlunparse_origin scheme netloc

/-- Embeds `build_submit_url` (solver.py lines 32-46): strip every trailing
slash from the discovered origin and append `/submit`.  The function is pure:
it performs no network access. -/
def build_submit_url (origin_el_text : Option String) (scheme netloc : String) : String :=
  rstripSlash (discovered_origin origin_el_text scheme netloc) ++ "/submit"

/-- Characters admissible in a URL scheme. -/
def isSchemeChar (c : Char) : Bool :=
  c.isAlpha || c.isDigit || c == '+' || c == '-' || c == '.'

/-- After the scheme, a syntactically absolute URL continues with `://` and a
non-empty host part (first host character is not another slash). -/
def startsAbsRest : List Char → Bool
  | ':' :: '/' :: '/' :: c :: _ => !(c == '/')
  | _ => false

/-- Syntactic absolute-URL check, from the spec's reading of an origin as
scheme + `://` + host: a non-empty scheme of scheme characters, then `://`,
then a non-empty host. -/
def isAbsoluteUrl (s : String) : Bool :=
  (!(s.data.takeWhile (fun c => !(c == ':'))).isEmpty) &&
  (s.data.takeWhile (fun c => !(c == ':'))).all isSchemeChar &&
  startsAbsRest (s.data.dropWhile (fun c => !(c == ':')))

lemma all_of_takeWhile (p : Char → Bool) : ∀ l : List Char, (l.takeWhile p).all p = true := by
  intro l
  induction l with
  | nil => rfl
  | cons a l ih =>
    by_cases h : p a = true
    · simp [List.takeWhile_cons, h, ih]
    · simp [List.takeWhile_cons, h]

lemma takeWhile_append_cons (p : Char → Bool) (x : List Char) (c : Char) (y : List Char)
    (hx : x.all p = true) (hc : p c = false) : ((x ++ c :: y).takeWhile p) = x := by
  induction x with
  | nil => simp [List.takeWhile_cons, hc]
  | cons a x ih =>
    rw [List.all_cons, Bool.and_eq_true] at hx
    obtain ⟨ha, hx2⟩ := hx
    simp [List.takeWhile_cons, ha, ih hx2]

lemma dropWhile_append_cons (p : Char → Bool) (x : List Char) (c : Char) (y : List Char)
    (hc : p c = false) : ((x ++ c :: y).dropWhile p) = x.dropWhile p ++ c :: y := by
  induction x with
  | nil => simp [List.dropWhile_cons, hc]
  | cons a x ih =>
    by_cases ha : p a = true
    · simp [List.dropWhile_cons, ha, ih]
    · simp [List.dropWhile_cons, ha]

lemma head?_of_dropWhile (p : Char → Bool) : ∀ (l : List Char) (a : Char),
    (l.dropWhile p).head? = some a → p a = false := by
  intro l
  induction l with
  | nil => intro a h; simp at h
  | cons b l ih =>
    intro a h
    by_cases hb : p b = true
    · exact ih a (by simpa [List.dropWhile_cons, hb] using h)
    · rw [List.dropWhile_cons, if_neg (by simp [hb])] at h
      simp only [List.head?_cons, Option.some.injEq] at h
      simpa [← h] using hb

lemma rstrip_append (a : List Char) (c : Char) (b : List Char) (hc : (c == '/') = false) :
    (((a ++ c :: b).reverse.dropWhile (fun x => x == '/')).reverse)
      = a ++ c :: ((b.reverse.dropWhile (fun x => x == '/')).reverse) := by
  have h1 : (a ++ c :: b).reverse = b.reverse ++ c :: a.reverse := by
    simp [List.reverse_append]
  rw [h1, dropWhile_append_cons (fun x => x == '/') b.reverse c a.reverse hc]
  simp [List.reverse_append]

lemma rstripSlash_lastNotSlash (s : String) :
    ((rstripSlash s).data.getLast? == some '/') = false := by
  unfold rstripSlash
  rw [List.getLast?_reverse]
  rcases hh : (s.data.reverse.dropWhile (fun c => c == '/')).head? with _ | a
  · rfl
  · have := head?_of_dropWhile (fun c => c == '/') s.data.reverse a hh
    rw [show ((some a : Option Char) == some '/') = (a == '/') from rfl]
    simpa using this

/-- C8: the submit URL always decomposes as a prefix (the right-stripped
origin) followed by `/submit`, and the prefix never ends in a slash, so no
double slash can appear immediately before `/submit`. -/
theorem build_submit_url_suffix_shape (origin_el_text : Option String) (scheme netloc : String) :
    ∃ p, build_submit_url origin_el_text scheme netloc = p ++ "/submit" ∧
      (p.data.getLast? == some '/') = false :=
  ⟨rstripSlash (discovered_origin origin_el_text scheme netloc), rfl,
    rstripSlash_lastNotSlash _⟩

lemma startsAbsRest_shape (R : List Char) (h : startsAbsRest R = true) :
    ∃ c t, R = ':' :: '/' :: '/' :: c :: t ∧ (c == '/') = false := by
  unfold startsAbsRest at h
  split at h
  · rename_i c t
    exact ⟨c, t, rfl, by simpa using h⟩
  · exact absurd h (by simp)

lemma isAbsoluteUrl_rstrip_submit (o : String) (h : isAbsoluteUrl o = true) :
    isAbsoluteUrl (rstripSlash o ++ "/submit") = true := by
  have hdecomp := List.takeWhile_append_dropWhile (fun c : Char => !(c == ':')) o.data
  rw [isAbsoluteUrl, Bool.and_eq_true, Bool.and_eq_true] at h
  obtain ⟨⟨h1, h2⟩, h3⟩ := h
  obtain ⟨c, t, hR, hc⟩ := startsAbsRest_shape _ h3
  set A := o.data.takeWhile (fun c : Char => !(c == ':')) with hAdef
  have hAall : A.all (fun c : Char => !(c == ':')) = true := all_of_takeWhile _ _
  have hodata : o.data = (A ++ [':', '/', '/']) ++ c :: t := by
    rw [← hdecomp, hR]; simp
  have hrs : (rstripSlash o).data
      = (A ++ [':', '/', '/']) ++ c :: ((t.reverse.dropWhile (fun x => x == '/')).reverse) := by
    show ((o.data.reverse.dropWhile (fun x => x == '/')).reverse) = _
    rw [hodata, rstrip_append _ _ _ hc]
  have hres : (rstripSlash o ++ "/submit").data
      = A ++ ':' :: ('/' :: '/' :: c ::
          (((t.reverse.dropWhile (fun x => x == '/')).reverse) ++ "/submit".data)) := by
    rw [String.data_append, hrs]; simp
  have hcolon : (fun c : Char => !(c == ':')) ':' = false := by decide
  have htake : ((rstripSlash o ++ "/submit").data.takeWhile (fun c : Char => !(c == ':'))) = A := by
    rw [hres]; exact takeWhile_append_cons _ _ _ _ hAall hcolon
  have hAdrop : A.dropWhile (fun c : Char => !(c == ':')) = [] := by
    refine List.dropWhile_eq_nil_iff.mpr ?_
    intro x hx
    exact List.all_eq_true.mp hAall x hx
  have hdrop : ((rstripSlash o ++ "/submit").data.dropWhile (fun c : Char => !(c == ':')))
      = ':' :: ('/' :: '/' :: c ::
          (((t.reverse.dropWhile (fun x => x == '/')).reverse) ++ "/submit".data)) := by
    rw [hres, dropWhile_append_cons _ _ _ _ hcolon, hAdrop]; rfl
  rw [isAbsoluteUrl, Bool.and_eq_true, Bool.and_eq_true, htake, hdrop]
  refine ⟨⟨h1, h2⟩, ?_⟩
  simp [startsAbsRest, hc]

/-- C7 (amended): `build_submit_url` is pure (no network access), and
whenever the discovered origin — the non-empty stripped override text, or
otherwise the scheme/netloc origin of `current_url` — is itself a
syntactically valid absolute URL, the produced submit URL is a syntactically
valid absolute URL.  (The override text is used without validation, so an
arbitrary non-empty `.origin` text can produce a non-absolute result; see the
counterexample.) -/
theorem build_submit_url_absolute_of_origin (origin_el_text : Option String)
    (scheme netloc : String)
    (h : isAbsoluteUrl (discovered_origin origin_el_text scheme netloc) = true) :
    isAbsoluteUrl (build_submit_url origin_el_text scheme netloc) = true :=
  isAbsoluteUrl_rstrip_submit _ h

/-- Concrete instantiation: a page whose `.origin` element reads
`https://example.com` yields the absolute submit URL
`https://example.com/submit`. -/
theorem build_submit_url_absolute_of_origin_witness :
    isAbsoluteUrl (discovered_origin (some "https://example.com") "x" "y") = true ∧
    isAbsoluteUrl (build_submit_url (some "https://example.com") "x" "y") = true :=
  ⟨by decide,
    build_submit_url_absolute_of_origin (some "https://example.com") "x" "y" (by decide)⟩

/-- C7 counterexample: with an `.origin` element whose text is `garbage`
(and an absolute `current_url` `https://example.com`), `build_submit_url`
returns `garbage/submit`, which is not a syntactically valid absolute URL —
the override text is used without any validation. -/
theorem build_submit_url_not_always_absolute :
    build_submit_url (some "garbage") "https" "example.com" = "garbage/submit" ∧
    isAbsoluteUrl (build_submit_url (some "garbage") "https" "example.com") = false := by
  constructor
  · decide
  · decide

/-- Split a character stream at line boundaries (`\n`, `\r`, `\r\n`), keeping
a final empty piece when the stream ends at a boundary; building block of
Python's `str.splitlines()`. -/
def splitOnNl : List Char → List (List Char)
  | [] => [[]]
  | '\r' :: '\n' :: rest => [] :: splitOnNl rest
  | '\r' :: rest => [] :: splitOnNl rest
  | '\n' :: rest => [] :: splitOnNl rest
  | c :: rest =>
    match splitOnNl rest with
    | [] => [[c]]
    | l :: ls => (c :: l) :: ls

/-- Python's `str.splitlines()`: like `splitOnNl` but a trailing line
boundary produces no final empty line. -/
def pySplitlines (l : List Char) : List (List Char) :=
  let ps := splitOnNl l
  if ps.getLast? == some [] then ps.dropLast else ps

/-- The regular-expression search for a digit run in a line: the first
maximal run of decimal digits, if any. -/
def firstDigitRun : List Char → Option (List Char)
  | [] => none
  | c :: rest =>
    if c.isDigit then some (c :: rest.takeWhile Char.isDigit) else firstDigitRun rest

/-- The line scan of `solve_scrape_question` (solver.py lines 74-83): skip
blank lines; on the first line with a digit run, return that run; exhausting
the lines is the `ValueError` path, modelled as `none`. -/
def scrape_scan : List (List Char) → Option (List Char)
  | [] => none
  | line :: rest =>
    if line.all Char.isWhitespace then scrape_scan rest
    else
      match firstDigitRun line with
      | some run => some run
      | none => scrape_scan rest

/-- Embeds the extraction phase of `solve_scrape_question` (solver.py lines
74-83), taking as input the plain text of the rendered data page (lines
53-71 locate and render that page; they are network/renderer calls). -/
def solve_scrape_question (data_text : String) : Option String :=
  (scrape_scan (pySplitlines data_text.data)).map fun l => String.mk l

/-- C6: on the spec's data page text the scrape solver answers `"42"`; in
general a blank line is skipped and the first non-blank line carrying a
digit run decides the answer. -/
theorem solve_scrape_question_first_digit_run :
    solve_scrape_question "foo\n\nbar42baz\n" = some "42" ∧
    (∀ (line : List Char) (rest : List (List Char)),
      line.all Char.isWhitespace = true → scrape_scan (line :: rest) = scrape_scan rest) ∧
    (∀ (line : List Char) (rest : List (List Char)) (run : List Char),
      line.all Char.isWhitespace = false → firstDigitRun line = some run →
      scrape_scan (line :: rest) = some run) := by
  refine ⟨by decide, ?_, ?_⟩
  · intro line rest h
    simp [scrape_scan, h]
  · intro line rest run h hrun
    simp [scrape_scan, h, hrun]

/-- Concrete instantiation of the scanning clauses: a whitespace line is
skipped, and a line `b4` answers `4`. -/
theorem solve_scrape_question_first_digit_run_witness :
    scrape_scan ([' '] :: [['4']]) = scrape_scan [['4']] ∧
    scrape_scan [['b', '4']] = some ['4'] :=
  ⟨solve_scrape_question_first_digit_run.2.1 [' '] [['4']] (by decide),
    solve_scrape_question_first_digit_run.2.2 ['b', '4'] [] ['4'] (by decide) (by decide)⟩

/-- Embeds the aggregation phase of `solve_audio_csv_question` (solver.py
lines 119-126).  `series` is the first CSV column after
`pd.to_numeric(df.iloc[:, 0], errors="coerce")`: a numeric cell is `some v`,
a non-numeric cell is coerced to missing (`none`).  The mask `series >=
cutoff` is false at missing cells, missing cells are likewise skipped by
`.sum()`, and the result is returned through `int(...)`.  (Lines 95-107
locate and download the CSV; they are network calls.) -/
def solve_audio_csv_question (series : List (Option Int)) (cutoff : Int) : Int :=
  (series.filterMap fun cell =>
    match cell with
    | some v => if cutoff ≤ v then some v else none
    | none => none).sum

/-- C5: the audio/CSV solver sums exactly the numeric cells that are at
least the cutoff — `45` for series `[5, 10, 15, 20]` with cutoff `10`,
`2` for series `[-1, 2]` with cutoff `0` — and a non-numeric (coerced)
cell anywhere in the column never changes the sum and never raises. -/
theorem solve_audio_csv_question_sum :
    solve_audio_csv_question [some 5, some 10, some 15, some 20] 10 = 45 ∧
    solve_audio_csv_question [some (-1), some 2] 0 = 2 ∧
    (∀ (pre post : List (Option Int)) (cutoff : Int),
      solve_audio_csv_question (pre ++ none :: post) cutoff
        = solve_audio_csv_question (pre ++ post) cutoff) := by
  refine ⟨by decide, by decide, ?_⟩
  intro pre post cutoff
  simp [solve_audio_csv_question, List.filterMap_append]

/-- Concrete instantiation of the missing-cell clause: a coerced cell in the
middle of the first example leaves the sum at `45`. -/
theorem solve_audio_csv_question_sum_witness :
    solve_audio_csv_question ([some 5, some 10] ++ none :: [some 15, some 20]) 10
      = solve_audio_csv_question ([some 5, some 10] ++ [some 15, some 20]) 10 :=
  solve_audio_csv_question_sum.2.2 [some 5, some 10] [some 15, some 20] 10

/-- JSON scalar values as they occur in submission responses; the fields the
engine inspects (`url`, `correct`, `reason`) are scalars. -/
inductive JVal where
  | null
  | bool (b : Bool)
  | num (n : Int)
  | str (s : String)
deriving DecidableEq, Repr

/-- Python truthiness of a JSON scalar (`if not next_url`, `while
current_url`): `None`, `False`, `0` and `""` are falsy. -/
def truthy : JVal → Bool
  | .null => false
  | .bool b => b
  | .num n => !(n == 0)
  | .str s => !(s == "")

/-- A parsed submission-response object: an association of field names to
values, as `response.json()` produces. -/
abbrev Resp := List (String × JVal)

/-- Python `dict.get(key)`: the value at `key`, or `None`-as-absent. -/
def getField (r : Resp) (key : String) : Option JVal :=
  match r.find? (fun kv => kv.1 == key) with
  | some kv => some kv.2
  | none => none

/-- Truthiness of `result.get("url")`: an absent field (`None`) is falsy. -/
def optTruthy : Option JVal → Bool
  | none => false
  | some v => truthy v

/-- An answer value: string for the scrape and generic solvers, integer for
the audio/CSV solver. -/
inductive Answer where
  | str (s : String)
  | int (n : Int)
deriving DecidableEq, Repr

/-- The exceptions `solve_quiz_chain` can raise: a solver `ValueError`, or
the `RuntimeError` of solver.py line 203 for a non-JSON submission response,
which carries the raw response body. -/
inductive ChainError where
  | solverFailure (msg : String)
  | invalidJsonFromSubmit (body : String)
deriving DecidableEq, Repr

/-- The message attached to a raised chain exception;
`f"Invalid JSON from submit: {response.text}"` embeds the raw body. -/
def chainErrorMessage : ChainError → String
  | .solverFailure msg => msg
  | .invalidJsonFromSubmit body => "Invalid JSON from submit: " ++ body

/-- The outside-world events of one loop iteration: the outcome of the
dispatched solver on the rendered page (render + classify + solve, solver.py
lines 153-190), the raw submission-response text, and its JSON parse
(`none` when the body is not valid JSON). -/
structure IterEvent where
  solverResult : Except String Answer
  respBody : String
  respJson : Option Resp

/-- The payload POSTed to the submit URL, built by `make_payload`
(solver.py lines 168-174). -/
structure Payload where
  email : String
  secret : String
  url : JVal
  answer : Answer
deriving DecidableEq, Repr

/-- solver.py line 15. -/
def MAX_DURATION_SEC : Nat := 180

/-- solver.py line 217: the result returned when the loop exits without a
terminal response. -/
def timeoutResult : Resp :=
  [("correct", JVal.bool false), ("reason", JVal.str "timeout or missing url")]

/-- Embeds the loop of `solve_quiz_chain` (solver.py lines 149-217).
`env k` holds the outside-world events of iteration `k`; `elapsed k` is
`time.time() - start_time` at the top of iteration `k` (whole seconds);
`fuel` bounds the modelled number of iterations (`none` in the first
component means the bound was reached with the loop still running).
The returned list records every payload that was POSTed, in order. -/
def chainLoop (env : Nat → IterEvent) (elapsed : Nat → Nat) (email secret : String) :
    Nat → Nat → JVal → Option (Except ChainError Resp) × List Payload
  | 0, _, _ => (none, [])
  | fuel + 1, k, current =>
    if truthy current = true ∧ elapsed k < MAX_DURATION_SEC then
      match (env k).solverResult with
      | .error msg => (some (.error (.solverFailure msg)), [])
      | .ok answer =>
        let payload : Payload := ⟨email, secret, current, answer⟩
        match (env k).respJson with
        | none => (some (.error (.invalidJsonFromSubmit (env k).respBody)), [payload])
        | some result =>
          if optTruthy (getField result "url") = false then
            (some (.ok result), [payload])
          else
            let rest := chainLoop env elapsed email secret fuel (k + 1)
              ((getField result "url").getD JVal.null)
            (rest.1, payload :: rest.2)
    else
      (some (.ok timeoutResult), [])

/-- Embeds `solve_quiz_chain` (solver.py lines 135-217): seed the loop with
`current_url = start_url` at iteration `0`. -/
def solve_quiz_chain (env : Nat → IterEvent) (elapsed : Nat → Nat)
    (start_url email secret : String) (fuel : Nat) :
    Option (Except ChainError Resp) × List Payload :=
  chainLoop env elapsed email secret fuel 0 (JVal.str start_url)

/-- The `current_url` the loop adopts after the response of iteration `k`
(solver.py lines 208, 214). -/
def nextUrlOf (ev : IterEvent) : JVal :=
  match ev.respJson with
  | some r => (getField r "url").getD JVal.null
  | none => JVal.null

/-- The sequence of `current_url` values at the top of successive
iterations, starting from `current` at iteration `k`. -/
def expectedUrls (env : Nat → IterEvent) : JVal → Nat → Nat → List JVal
  | _, _, 0 => []
  | current, k, n + 1 => current :: expectedUrls env (nextUrlOf (env k)) (k + 1) n

/-- C1: when the submission response parses to `r` and its `url` field is
absent or falsy, the loop terminates and returns exactly the parsed object
`r`, after having POSTed the payload of this final iteration. -/
theorem chain_missing_url_returns_verbatim (env : Nat → IterEvent) (elapsed : Nat → Nat)
    (email secret : String) (fuel k : Nat) (current : JVal) (a : Answer) (r : Resp)
    (hcur : truthy current = true) (htime : elapsed k < MAX_DURATION_SEC)
    (hsolve : (env k).solverResult = .ok a) (hjson : (env k).respJson = some r)
    (hurl : optTruthy (getField r "url") = false) :
    chainLoop env elapsed email secret (fuel + 1) k current
      = (some (.ok r), [⟨email, secret, current, a⟩]) := by
  simp [chainLoop, hcur, htime, hsolve, hjson, hurl]

/-- Concrete instantiation: a response `{"correct": true}` (no `url` field)
ends the chain with exactly that object as the result. -/
theorem chain_missing_url_returns_verbatim_witness :
    chainLoop (fun _ => ⟨.ok (.str "32000"), "ok", some [("correct", JVal.bool true)]⟩)
        (fun _ => 0) "e@x" "s3cr3t" 1 0 (JVal.str "http://quiz/1")
      = (some (.ok [("correct", JVal.bool true)]),
         [⟨"e@x", "s3cr3t", JVal.str "http://quiz/1", .str "32000"⟩]) :=
  chain_missing_url_returns_verbatim
    (fun _ => ⟨.ok (.str "32000"), "ok", some [("correct", JVal.bool true)]⟩)
    (fun _ => 0) "e@x" "s3cr3t" 0 0 (JVal.str "http://quiz/1")
    (.str "32000") [("correct", JVal.bool true)]
    (by decide) (by decide) rfl rfl (by decide)

/-- C3: the time budget is enforced at the top of each iteration: once
`elapsed ≥ MAX_DURATION_SEC` there, no iteration body runs and the loop
returns the timeout result, even for a valid non-empty `current_url`
(no truthiness hypothesis is needed).  The check is not preemptive: an
iteration that starts inside the budget runs to completion — its payload is
POSTed — and only the next loop-top check terminates the chain. -/
theorem chain_budget_checked_at_loop_top (env : Nat → IterEvent) (elapsed : Nat → Nat)
    (email secret : String) (fuel k : Nat) (current : JVal) :
    (MAX_DURATION_SEC ≤ elapsed k →
      chainLoop env elapsed email secret (fuel + 1) k current
        = (some (.ok timeoutResult), [])) ∧
    (∀ (a : Answer) (r : Resp) (v : JVal),
      truthy current = true → elapsed k < MAX_DURATION_SEC →
      (env k).solverResult = .ok a → (env k).respJson = some r →
      getField r "url" = some v → truthy v = true →
      MAX_DURATION_SEC ≤ elapsed (k + 1) →
      chainLoop env elapsed email secret (fuel + 1 + 1) k current
        = (some (.ok timeoutResult), [⟨email, secret, current, a⟩])) := by
  constructor
  · intro h
    rw [chainLoop, if_neg]
    rintro ⟨_, hlt⟩
    omega
  · intro a r v hcur hlt hsolve hjson hurl htr hnext
    rw [chainLoop, if_pos ⟨hcur, hlt⟩]
    simp only [hsolve, hjson, hurl]
    simp only [optTruthy, htr, Option.getD_some]
    rw [if_neg (by simp), chainLoop, if_neg (by rintro ⟨_, hlt2⟩; omega)]

/-- Concrete instantiation of both budget clauses: with 200 seconds elapsed
the loop exits immediately with no POST; and an iteration entered at 0
seconds completes its POST even though the next loop-top check, at 200
seconds, then times the chain out. -/
theorem chain_budget_checked_at_loop_top_witness :
    chainLoop (fun _ => ⟨.ok (.str "x"), "r", some [("url", JVal.str "http://next")]⟩)
        (fun _ => 200) "e@x" "s" 1 0 (JVal.str "http://quiz/1")
      = (some (.ok timeoutResult), []) ∧
    chainLoop (fun _ => ⟨.ok (.str "x"), "r", some [("url", JVal.str "http://next")]⟩)
        (fun k => k * 200) "e@x" "s" 2 0 (JVal.str "http://quiz/1")
      = (some (.ok timeoutResult), [⟨"e@x", "s", JVal.str "http://quiz/1", .str "x"⟩]) :=
  ⟨(chain_budget_checked_at_loop_top
      (fun _ => ⟨.ok (.str "x"), "r", some [("url", JVal.str "http://next")]⟩)
      (fun _ => 200) "e@x" "s" 0 0 (JVal.str "http://quiz/1")).1 (by decide),
   (chain_budget_checked_at_loop_top
      (fun _ => ⟨.ok (.str "x"), "r", some [("url", JVal.str "http://next")]⟩)
      (fun k => k * 200) "e@x" "s" 0 0 (JVal.str "http://quiz/1")).2
      (.str "x") [("url", JVal.str "http://next")] (JVal.str "http://next")
      (by decide) (by decide) rfl rfl (by decide) (by decide) (by decide)⟩

/-- C4: an empty (falsy) `start_url` makes the loop condition fail on entry:
the result is exactly `{correct: false, reason: "timeout or missing url"}`,
the POST trace is empty, and — since this holds for every environment `env`
— no render, solver or network interaction can influence or occur in this
run. -/
theorem chain_empty_start_url (env : Nat → IterEvent) (elapsed : Nat → Nat)
    (email secret : String) (fuel : Nat) :
    solve_quiz_chain env elapsed "" email secret (fuel + 1)
      = (some (.ok timeoutResult), []) := by
  rw [solve_quiz_chain, chainLoop, if_neg]
  rintro ⟨hcur, _⟩
  simp [truthy] at hcur

/-- C9: a submission response whose body is not valid JSON aborts the whole
chain with the `RuntimeError` of solver.py line 203 — regardless of the
remaining fuel, so the failure is propagated, not retried — and the error
message embeds the raw response body. -/
theorem chain_invalid_json_aborts (env : Nat → IterEvent) (elapsed : Nat → Nat)
    (email secret : String) (fuel k : Nat) (current : JVal) (a : Answer)
    (hcur : truthy current = true) (htime : elapsed k < MAX_DURATION_SEC)
    (hsolve : (env k).solverResult = .ok a) (hjson : (env k).respJson = none) :
    chainLoop env elapsed email secret (fuel + 1) k current
      = (some (.error (.invalidJsonFromSubmit (env k).respBody)),
         [⟨email, secret, current, a⟩]) ∧
    chainErrorMessage (.invalidJsonFromSubmit (env k).respBody)
      = "Invalid JSON from submit: " ++ (env k).respBody := by
  constructor
  · simp [chainLoop, hcur, htime, hsolve, hjson]
  · rfl

/-- Concrete instantiation: a non-JSON body `<html>oops</html>` aborts the
chain with an error carrying that body. -/
theorem chain_invalid_json_aborts_witness :
    chainLoop (fun _ => ⟨.ok (.int 45), "<html>oops</html>", none⟩)
        (fun _ => 0) "e@x" "s" 7 0 (JVal.str "http://quiz/1")
      = (some (.error (.invalidJsonFromSubmit "<html>oops</html>")),
         [⟨"e@x", "s", JVal.str "http://quiz/1", .int 45⟩]) ∧
    chainErrorMessage (.invalidJsonFromSubmit "<html>oops</html>")
      = "Invalid JSON from submit: <html>oops</html>" :=
  chain_invalid_json_aborts (fun _ => ⟨.ok (.int 45), "<html>oops</html>", none⟩)
    (fun _ => 0) "e@x" "s" 6 0 (JVal.str "http://quiz/1") (.int 45)
    (by decide) (by decide) rfl rfl

/-- C10: across every chain execution, every POSTed payload carries the
`email` and `secret` the loop was invoked with — the loop never mutates them
— and the payload of each iteration carries exactly that iteration's
`current_url` (the start URL for iteration 0, thereafter the `url` field of
the previous response). -/
theorem chain_payload_fields_invariant (env : Nat → IterEvent) (elapsed : Nat → Nat)
    (email secret : String) :
    ∀ (fuel k : Nat) (current : JVal),
      ((chainLoop env elapsed email secret fuel k current).2.map Payload.email
        = List.replicate (chainLoop env elapsed email secret fuel k current).2.length email) ∧
      ((chainLoop env elapsed email secret fuel k current).2.map Payload.secret
        = List.replicate (chainLoop env elapsed email secret fuel k current).2.length secret) ∧
      ((chainLoop env elapsed email secret fuel k current).2.map Payload.url
        = expectedUrls env current k
            (chainLoop env elapsed email secret fuel k current).2.length) := by
  intro fuel
  induction fuel with
  | zero => intro k current; simp [chainLoop, expectedUrls]
  | succ n ih =>
    intro k current
    by_cases hcond : truthy current = true ∧ elapsed k < MAX_DURATION_SEC
    · rcases hs : (env k).solverResult with msg | a
      · simp [chainLoop, hcond, hs, expectedUrls]
      · rcases hj : (env k).respJson with _ | r
        · simp [chainLoop, hcond, hs, hj, expectedUrls]
        · by_cases hu : optTruthy (getField r "url") = false
          · simp [chainLoop, hcond, hs, hj, hu, expectedUrls]
          · obtain ⟨ih1, ih2, ih3⟩ := ih (k + 1) ((getField r "url").getD JVal.null)
            simp [chainLoop, hcond, hs, hj, hu, expectedUrls, nextUrlOf,
              ih1, ih2, ih3, List.replicate_succ]
    · simp [chainLoop, hcond, expectedUrls]

end QuizSolver
